import Mathlib

/-!
Verification of the ElectricMind orchestration script
(`electricmind_scripts_python/main_script.py`).

The script's `main` function prints a banner from the settings, constructs a
`PlaywrightManager`, and then, inside a `try/except/finally` block: opens the
target URL, checks that the locator file exists (raising `FileNotFoundError`
otherwise), validates the elements described by the locator file, reports the
result, and (in `finally`) tears the manager down before calling
`sys.exit(exit_code)`.

We embed `main` as a pure function from an environment (describing the
outcomes of the external calls: reading the settings, constructing the
manager, `open_url`, `os.path.exists`, `validate_element_from_data`) to a
trace of observable events plus an outcome (an explicit `sys.exit` code, or
an uncaught exception).  The session manager and the validator live in
`common/lib`, which is not part of the sources here, so those two components
are modelled from the specification and marked as such.
-/

namespace ElectricMind

/-- Exception values raised by external calls; each carries its message. -/
inductive Err where
  | navigationError (msg : String)
  | notFoundError (msg : String)
  | parseError (msg : String)
  | otherError (msg : String)
deriving DecidableEq, Repr

/-- The message carried by an exception (what `str(e)` returns). -/
def Err.message : Err → String
  | .navigationError m => m
  | .notFoundError m => m
  | .parseError m => m
  | .otherError m => m

/-- Observable events of one run of `main`, in the order they occur. -/
inductive Event where
  | printBanner
  | initManager
  | openCall
  | locatorExistsCheck
  | validateCall
  | reportPass
  | reportFail
  | reportCritical (e : Err)
  | teardownCall
  | finalPrint
deriving DecidableEq, Repr

/-- Final outcome of a run: an explicit `sys.exit(code)` or an uncaught
exception propagating out of `main`. -/
inductive Outcome where
  | exited (code : Nat)
  | uncaught (e : Err)
deriving DecidableEq, Repr

deriving instance DecidableEq for Except

/-- The behaviour of the external world during one run: whether reading the
settings for the banner raises, whether `PlaywrightManager()` raises, what
`open_url` does, whether `os.path.exists(locator_file)` holds, and what
`validate_element_from_data` returns (its boolean result, or a raised
exception). -/
structure Env where
  readSettings : Except Err Unit
  initManager : Except Err Unit
  openUrl : Except Err Unit
  locatorFileExists : Bool
  validateData : Except Err Bool
deriving DecidableEq, Repr

/-- The `FileNotFoundError` that `main` raises itself when the locator file
is absent (`raise FileNotFoundError(f"Locator file not found: ...")`). -/
def locatorNotFoundErr : Err :=
  Err.notFoundError "Locator file not found"

/-- The body of the `try/except` block of `main`: open the URL, check the
locator file exists, validate, report; any exception is caught by the
`except Exception` clause, which logs it and sets `exit_code = 1`.
Returns the events of this part of the run and the value of `exit_code`. -/
def tryBody (env : Env) : List Event × Nat :=
  match env.openUrl with
  | .error e => ([.openCall, .reportCritical e], 1)
  | .ok _ =>
    if env.locatorFileExists then
      match env.validateData with
      | .error e =>
          ([.openCall, .locatorExistsCheck, .validateCall, .reportCritical e], 1)
      | .ok true =>
          ([.openCall, .locatorExistsCheck, .validateCall, .reportPass], 0)
      | .ok false =>
          ([.openCall, .locatorExistsCheck, .validateCall, .reportFail], 1)
    else
      ([.openCall, .locatorExistsCheck, .reportCritical locatorNotFoundErr], 1)

/-- The whole of `main`: banner prints (which read the settings), manager
construction, then the `try/except/finally` block, the final print and
`sys.exit(exit_code)`.  An exception raised before the `try` block is
entered propagates uncaught. -/
def main (env : Env) : List Event × Outcome :=
  match env.readSettings with
  | .error e => ([], .uncaught e)
  | .ok _ =>
    match env.initManager with
    | .error e => ([.printBanner], .uncaught e)
    | .ok _ =>
      let r := tryBody env
      (.printBanner :: .initManager :: (r.1 ++ [.teardownCall, .finalPrint]),
        .exited r.2)

/-- The run reaches the `try` block: reading the settings and constructing
the `PlaywrightManager` both succeed. -/
def Env.preTryOk (env : Env) : Prop :=
  env.readSettings = .ok () ∧ env.initManager = .ok ()

instance (env : Env) : Decidable env.preTryOk := by
  unfold Env.preTryOk; infer_instance

/-- Number of events of a trace satisfying `p`. -/
def countEvent (p : Event → Bool) (tr : List Event) : Nat :=
  (tr.filter p).length

/-- Recognises the teardown event. -/
def Event.isTeardown : Event → Bool
  | .teardownCall => true
  | _ => false

/-- Recognises the `open_url` call event. -/
def Event.isOpen : Event → Bool
  | .openCall => true
  | _ => false

/-- Recognises the `validate_element_from_data` call event. -/
def Event.isValidate : Event → Bool
  | .validateCall => true
  | _ => false

/-- Recognises a caught-critical-error report event. -/
def Event.isCritical : Event → Bool
  | .reportCritical _ => true
  | _ => false

/-- Phase of the orchestrator state machine each event belongs to:
`Init` (banner, manager construction), `Opened`, loading, `Validated`,
`Reported`, `TornDown`, final print. -/
def eventClass : Event → Nat
  | .printBanner => 0
  | .initManager => 1
  | .openCall => 2
  | .locatorExistsCheck => 3
  | .validateCall => 4
  | .reportPass => 5
  | .reportFail => 5
  | .reportCritical _ => 5
  | .teardownCall => 6
  | .finalPrint => 7

/- Sample environments used by the witness theorems. -/

/-- A fully successful run. -/
def envAllOk : Env :=
  { readSettings := .ok (), initManager := .ok (), openUrl := .ok ()
    locatorFileExists := true, validateData := .ok true }

/-- A run where validation reports a missing element. -/
def envValidateFalse : Env :=
  { readSettings := .ok (), initManager := .ok (), openUrl := .ok ()
    locatorFileExists := true, validateData := .ok false }

/-- A run where navigation fails. -/
def envOpenFail : Env :=
  { readSettings := .ok (), initManager := .ok ()
    openUrl := .error (Err.navigationError "page did not load")
    locatorFileExists := true, validateData := .ok true }

/-- A run where the locator file is missing. -/
def envNoFile : Env :=
  { readSettings := .ok (), initManager := .ok (), openUrl := .ok ()
    locatorFileExists := false, validateData := .ok true }

/-- A run where validation raises. -/
def envValidateErr : Env :=
  { readSettings := .ok (), initManager := .ok (), openUrl := .ok ()
    locatorFileExists := true, validateData := .error (Err.parseError "bad yaml") }

/-- A run where reading the settings raises before the `try` block. -/
def envPreFail : Env :=
  { readSettings := .error (Err.otherError "missing URL"), initManager := .ok ()
    openUrl := .ok (), locatorFileExists := true, validateData := .ok true }

/- The validator and the session manager live in `common/lib`, which is not
among the sources; they are modelled from the specification. -/

/-- One entry of the locator file: a human-readable name and a selector. -/
structure LocatorSpec where
  name : String
  selector : String
deriving DecidableEq, Repr

/-- Per-element validation outcome. -/
structure ElementStatus where
  name : String
  selector : String
  found : Bool
deriving DecidableEq, Repr

/-- Result of validating all elements of a locator file. -/
structure ValidationResult where
  overall : Bool
  perElement : List ElementStatus
deriving DecidableEq, Repr

/-- Modelled from the spec: `PlaywrightManager.validate_element_from_data`
(in `common/lib`, not among the sources) checks, for each descriptor of the
locator file in order, whether the page has an element matching its selector
(`pageHas`), records a per-element `found` flag without raising and without
short-circuiting, and takes the overall result as the conjunction of the
per-element results. -/
def validate (pageHas : String → Bool) (specs : List LocatorSpec) :
    ValidationResult :=
  let per := specs.map fun s =>
    ElementStatus.mk s.name s.selector (pageHas s.selector)
  { overall := per.all fun e => e.found, perElement := per }

/-- State of the browser session owned by the `PlaywrightManager`. -/
inductive SessionState where
  | closed
  | live
deriving DecidableEq, Repr

/-- Modelled from the spec: the session manager's `open` (in `common/lib`,
not among the sources) either launches a browser and leaves a live session,
or fails with a `NavigationError`, in which case no session is live. -/
def openSession (succeeds : Bool) (_s : SessionState) :
    SessionState × Option Err :=
  if succeeds then (SessionState.live, none)
  else (SessionState.closed, some (Err.navigationError "page did not load"))

/-- Modelled from the spec: `PlaywrightManager.teardown` (in `common/lib`,
not among the sources) releases all resources, leaving no live session; it
is idempotent, a no-op rather than an error when no session is open, and
never raises. -/
def teardown (_s : SessionState) : SessionState × Option Err :=
  (SessionState.closed, none)

/-- C1: once the `try` block is entered, the explicit exit code is 0 if and
only if the validation result is overall true with no critical error (open
succeeded, the locator file exists, and validation returned true); on every
other path through the `try` block — one or more elements missing, a missing
locator file, a navigation failure, or a caught exception — it is 1. -/
theorem exit_zero_iff_validation_ok (env : Env) (h : env.preTryOk) :
    ((main env).2 = Outcome.exited 0 ↔
      env.openUrl = .ok () ∧ env.locatorFileExists = true ∧
        env.validateData = .ok true) ∧
    ((main env).2 = Outcome.exited 0 ∨ (main env).2 = Outcome.exited 1) := by
  obtain ⟨h1, h2⟩ := h
  cases hou : env.openUrl with
  | error e => simp [main, tryBody, h1, h2, hou]
  | ok u =>
    cases u
    cases hle : env.locatorFileExists with
    | false => simp [main, tryBody, h1, h2, hou, hle]
    | true =>
      cases hvd : env.validateData with
      | error e => simp [main, tryBody, h1, h2, hou, hle, hvd]
      | ok b => cases b <;> simp [main, tryBody, h1, h2, hou, hle, hvd]

/-- Witness for C1 on a fully successful run. -/
theorem exit_zero_iff_validation_ok_witness :
    ((main envAllOk).2 = Outcome.exited 0 ↔
      envAllOk.openUrl = .ok () ∧ envAllOk.locatorFileExists = true ∧
        envAllOk.validateData = .ok true) ∧
    ((main envAllOk).2 = Outcome.exited 0 ∨
      (main envAllOk).2 = Outcome.exited 1) :=
  exit_zero_iff_validation_ok envAllOk ⟨rfl, rfl⟩

/-- C2: once the `try` block is entered, the `finally` block runs on every
exit path, so the manager's `teardown` is called exactly once per run. -/
theorem teardown_called_exactly_once (env : Env) (h : env.preTryOk) :
    countEvent Event.isTeardown (main env).1 = 1 := by
  obtain ⟨h1, h2⟩ := h
  cases hou : env.openUrl with
  | error e => simp [main, tryBody, h1, h2, hou, countEvent, Event.isTeardown]
  | ok u =>
    cases u
    cases hle : env.locatorFileExists with
    | false =>
      simp [main, tryBody, h1, h2, hou, hle, countEvent, Event.isTeardown]
    | true =>
      cases hvd : env.validateData with
      | error e =>
        simp [main, tryBody, h1, h2, hou, hle, hvd, countEvent, Event.isTeardown]
      | ok b =>
        cases b <;>
          simp [main, tryBody, h1, h2, hou, hle, hvd, countEvent, Event.isTeardown]

/-- Witness for C2 on a run whose validation reports a missing element. -/
theorem teardown_called_exactly_once_witness :
    countEvent Event.isTeardown (main envValidateFalse).1 = 1 :=
  teardown_called_exactly_once envValidateFalse ⟨rfl, rfl⟩

/-- C3: every error raised during session open, locator data loading, or
validation is caught exactly once at the top level, its report (carrying the
message) appears in the trace, the run is converted to overall failure
(exit code 1), and teardown still runs. -/
theorem error_caught_logged_once (env : Env) (e : Err) (h : env.preTryOk)
    (he : env.openUrl = .error e ∨
      (env.openUrl = .ok () ∧ env.locatorFileExists = false ∧
        e = locatorNotFoundErr) ∨
      (env.openUrl = .ok () ∧ env.locatorFileExists = true ∧
        env.validateData = .error e)) :
    Event.reportCritical e ∈ (main env).1 ∧
    countEvent Event.isCritical (main env).1 = 1 ∧
    (main env).2 = Outcome.exited 1 ∧
    countEvent Event.isTeardown (main env).1 = 1 := by
  obtain ⟨h1, h2⟩ := h
  rcases he with hou | ⟨hou, hle, he⟩ | ⟨hou, hle, hvd⟩
  · simp [main, tryBody, h1, h2, hou, countEvent, Event.isCritical,
      Event.isTeardown]
  · subst he
    simp [main, tryBody, h1, h2, hou, hle, countEvent, Event.isCritical,
      Event.isTeardown]
  · simp [main, tryBody, h1, h2, hou, hle, hvd, countEvent, Event.isCritical,
      Event.isTeardown]

/-- Witness for C3 on a run whose validation call raises a parse error. -/
theorem error_caught_logged_once_witness :
    Event.reportCritical (Err.parseError "bad yaml") ∈ (main envValidateErr).1 ∧
    countEvent Event.isCritical (main envValidateErr).1 = 1 ∧
    (main envValidateErr).2 = Outcome.exited 1 ∧
    countEvent Event.isTeardown (main envValidateErr).1 = 1 :=
  error_caught_logged_once envValidateErr (Err.parseError "bad yaml")
    ⟨rfl, rfl⟩ (Or.inr (Or.inr ⟨rfl, rfl, rfl⟩))

/-- C4: for every well-formed locator file with N descriptors the validator
produces exactly N per-element entries, the i-th entry comes from the i-th
descriptor in loaded order with its own lookup result (so every element is
checked even after an earlier failure), and the overall result is true iff
every per-element `found` is true. -/
theorem validation_complete_ordered_conjunction (pageHas : String → Bool)
    (specs : List LocatorSpec) :
    (validate pageHas specs).perElement.length = specs.length ∧
    (∀ i : Nat, (validate pageHas specs).perElement[i]? =
      (specs[i]?).map fun s =>
        ElementStatus.mk s.name s.selector (pageHas s.selector)) ∧
    ((validate pageHas specs).overall = true ↔
      ∀ e ∈ (validate pageHas specs).perElement, e.found = true) := by
  refine ⟨by simp [validate], fun i => ?_, ?_⟩
  · simp [validate]
  · simp [validate, List.all_eq_true]

/-- C5: if the locator file does not exist (and the `try` block was entered
with a successful open), the run fails with a `FileNotFoundError`, exits
with code 1, and `open_url` is called exactly once — never a second time. -/
theorem missing_locator_file_behaviour (env : Env) (h : env.preTryOk)
    (ho : env.openUrl = .ok ()) (hf : env.locatorFileExists = false) :
    (∃ m, Event.reportCritical (Err.notFoundError m) ∈ (main env).1) ∧
    (main env).2 = Outcome.exited 1 ∧
    countEvent Event.isOpen (main env).1 = 1 := by
  obtain ⟨h1, h2⟩ := h
  refine ⟨⟨"Locator file not found", ?_⟩, ?_, ?_⟩ <;>
    simp [main, tryBody, h1, h2, ho, hf, locatorNotFoundErr, countEvent,
      Event.isOpen]

/-- Witness for C5 on a run whose locator file is absent. -/
theorem missing_locator_file_behaviour_witness :
    (∃ m, Event.reportCritical (Err.notFoundError m) ∈ (main envNoFile).1) ∧
    (main envNoFile).2 = Outcome.exited 1 ∧
    countEvent Event.isOpen (main envNoFile).1 = 1 :=
  missing_locator_file_behaviour envNoFile ⟨rfl, rfl⟩ rfl rfl

/-- C6: if session open fails, the run performs no locator-file check and no
validation call, reports the failure (exit code 1), and teardown runs after
the report — the trace is exactly banner, manager construction, the failed
open, the critical-error report, teardown, final print. -/
theorem open_failure_skips_validation (env : Env) (e : Err)
    (h : env.preTryOk) (ho : env.openUrl = .error e) :
    (main env).1 = [Event.printBanner, Event.initManager, Event.openCall,
      Event.reportCritical e, Event.teardownCall, Event.finalPrint] ∧
    countEvent Event.isValidate (main env).1 = 0 ∧
    (main env).2 = Outcome.exited 1 := by
  obtain ⟨h1, h2⟩ := h
  refine ⟨?_, ?_, ?_⟩ <;>
    simp [main, tryBody, h1, h2, ho, countEvent, Event.isValidate]

/-- Witness for C6 on a run whose navigation fails. -/
theorem open_failure_skips_validation_witness :
    (main envOpenFail).1 = [Event.printBanner, Event.initManager,
      Event.openCall,
      Event.reportCritical (Err.navigationError "page did not load"),
      Event.teardownCall, Event.finalPrint] ∧
    countEvent Event.isValidate (main envOpenFail).1 = 0 ∧
    (main envOpenFail).2 = Outcome.exited 1 :=
  open_failure_skips_validation envOpenFail
    (Err.navigationError "page did not load") ⟨rfl, rfl⟩ rfl

/-- C7: once the `try` block is entered, the trace visits the orchestrator
phases Init, Opened, loading, Validated, Reported, TornDown in strictly
increasing order (open before loading and validation, validation before
reporting, reporting before teardown), and the terminal teardown event is
reached on every path, including error paths. -/
theorem run_phases_in_order (env : Env) (h : env.preTryOk) :
    List.Chain' (fun a b => eventClass a < eventClass b) (main env).1 ∧
    Event.teardownCall ∈ (main env).1 := by
  obtain ⟨h1, h2⟩ := h
  cases hou : env.openUrl with
  | error e => simp [main, tryBody, h1, h2, hou, eventClass]
  | ok u =>
    cases u
    cases hle : env.locatorFileExists with
    | false => simp [main, tryBody, h1, h2, hou, hle, eventClass]
    | true =>
      cases hvd : env.validateData with
      | error e => simp [main, tryBody, h1, h2, hou, hle, hvd, eventClass]
      | ok b => cases b <;> simp [main, tryBody, h1, h2, hou, hle, hvd, eventClass]

/-- Witness for C7 on a fully successful run. -/
theorem run_phases_in_order_witness :
    List.Chain' (fun a b => eventClass a < eventClass b) (main envAllOk).1 ∧
    Event.teardownCall ∈ (main envAllOk).1 :=
  run_phases_in_order envAllOk ⟨rfl, rfl⟩

/-- C8: calling teardown when no session is open is a no-op rather than an
error, teardown never raises, it is idempotent, and it is safe after a
failed open (which leaves no live session). -/
theorem teardown_idempotent_and_safe :
    teardown SessionState.closed = (SessionState.closed, none) ∧
    (∀ s, (teardown s).2 = none) ∧
    (∀ s, teardown (teardown s).1 = teardown s) ∧
    (∀ s, teardown (openSession false s).1 = (SessionState.closed, none)) :=
  ⟨rfl, fun _ => rfl, fun _ => rfl, fun _ => rfl⟩

/-- C9: an exception raised before the `try` block is entered — while
reading the settings for the banner or while constructing the
`PlaywrightManager` — propagates out of `main` uncaught: teardown is never
called, the final print never happens, and the process does not terminate
via the explicit `sys.exit` mapping. -/
theorem pre_try_error_uncaught (env : Env) (e : Err)
    (h : env.readSettings = .error e ∨
      (env.readSettings = .ok () ∧ env.initManager = .error e)) :
    (main env).2 = Outcome.uncaught e ∧
    Event.teardownCall ∉ (main env).1 ∧
    Event.finalPrint ∉ (main env).1 ∧
    ∀ c, (main env).2 ≠ Outcome.exited c := by
  rcases h with h1 | ⟨h1, h2⟩
  · simp [main, h1]
  · simp [main, h1, h2]

/-- Witness for C9 on a run where reading the settings raises. -/
theorem pre_try_error_uncaught_witness :
    (main envPreFail).2 = Outcome.uncaught (Err.otherError "missing URL") ∧
    Event.teardownCall ∉ (main envPreFail).1 ∧
    Event.finalPrint ∉ (main envPreFail).1 ∧
    ∀ c, (main envPreFail).2 ≠ Outcome.exited c :=
  pre_try_error_uncaught envPreFail (Err.otherError "missing URL")
    (Or.inl rfl)

/-- C10: on every path through the `try/except` body, `exit_code` is
assigned before the `finally` block runs, so `main` terminates via
`sys.exit(exit_code)` with exactly 0 or 1 (teardown and the final prints
are modelled as non-raising, as the spec requires of them). -/
theorem exit_code_zero_or_one (env : Env) (h : env.preTryOk) :
    ∃ c, (main env).2 = Outcome.exited c ∧ (c = 0 ∨ c = 1) := by
  obtain ⟨h1, h2⟩ := h
  cases hou : env.openUrl with
  | error e => exact ⟨1, by simp [main, tryBody, h1, h2, hou], Or.inr rfl⟩
  | ok u =>
    cases u
    cases hle : env.locatorFileExists with
    | false => exact ⟨1, by simp [main, tryBody, h1, h2, hou, hle], Or.inr rfl⟩
    | true =>
      cases hvd : env.validateData with
      | error e =>
        exact ⟨1, by simp [main, tryBody, h1, h2, hou, hle, hvd], Or.inr rfl⟩
      | ok b =>
        cases b
        · exact ⟨1, by simp [main, tryBody, h1, h2, hou, hle, hvd], Or.inr rfl⟩
        · exact ⟨0, by simp [main, tryBody, h1, h2, hou, hle, hvd], Or.inl rfl⟩

/-- Witness for C10 on a run whose validation reports a missing element. -/
theorem exit_code_zero_or_one_witness :
    ∃ c, (main envValidateFalse).2 = Outcome.exited c ∧ (c = 0 ∨ c = 1) :=
  exit_code_zero_or_one envValidateFalse ⟨rfl, rfl⟩

end ElectricMind
